import Mathlib

/-!
Shallow embedding of the tender consistency and scoring engine
(FastAPI backend: `app/routers/readiness.py`, `app/routers/search.py`,
`app/crud.py`, `app/models.py`).

Python strings are represented as `List Char`; Python `dict` records with
optional keys are represented as structures with `Option` fields; MongoDB
collections and SQL tables are represented as lists of records; machine
floats used only for comparison/division are represented as `ℚ`.
-/

/-- Model of Python `str.lower()` (per-character lowercasing). -/
def pyLower (s : List Char) : List Char := s.map Char.toLower

/-- List-prefix test, model of the inner step of Python substring search. -/
def isPrefLC : List Char → List Char → Bool
  | [], _ => true
  | _ :: _, [] => false
  | a :: as, b :: bs => a == b && isPrefLC as bs

/-- Model of Python `needle in hay` substring membership. -/
def containsSub (needle : List Char) : List Char → Bool
  | [] => isPrefLC needle []
  | c :: t => isPrefLC needle (c :: t) || containsSub needle t

/-- Accumulator for `pyWords`: `cur` is the current word, reversed. -/
def pyWordsAux : List Char → List Char → List (List Char)
  | cur, [] => if cur.isEmpty then [] else [cur.reverse]
  | cur, c :: t =>
    if c.isWhitespace then
      if cur.isEmpty then pyWordsAux [] t else cur.reverse :: pyWordsAux [] t
    else pyWordsAux (c :: cur) t

/-- Model of Python `str.split()` with no separator: split on runs of
whitespace, dropping empty words. -/
def pyWords (s : List Char) : List (List Char) := pyWordsAux [] s

/-- Model of Python `int(s)` on an unsigned digit string. -/
def pyNatL (l : List Char) : Option Nat :=
  if l.isEmpty then none
  else if l.all Char.isDigit then
    some (l.foldl (fun a c => a * 10 + (c.toNat - 48)) 0)
  else none

/-- Model of Python `int(s)`: optional sign followed by digits; `none`
models a raised `ValueError`. -/
def pyIntL (l : List Char) : Option Int :=
  match l with
  | '-' :: rest => (pyNatL rest).map (fun n => -(n : Int))
  | '+' :: rest => (pyNatL rest).map (fun n => (n : Int))
  | _ => (pyNatL l).map (fun n => (n : Int))

/-! ## Suitability scorer (`app/routers/readiness.py`) -/

/-- A tender document as read by `calculate_suitability_score`; each field
is `Option` because the Python code tests key presence with `in`. -/
structure Tender where
  industry_sector : Option (List Char)
  province : Option (List Char)
  cidb_required : Option Bool
  cidb_grade : Option (List Char)
  bbbee_level_required : Option Int
  min_years_experience : Option Int
deriving DecidableEq

/-- A company profile as read by `calculate_suitability_score`. -/
structure CompanyProfile where
  industry_sector : Option (List Char)
  geographic_coverage : Option (List (List Char))
  cidb_grade : Option (List Char)
  bbbee_level : Option Int
  years_experience : Option Int
deriving DecidableEq

/-- `ChecklistItem` Pydantic model from `readiness.py`. -/
structure ChecklistItem where
  criterion : List Char
  matched : Bool
  importance : Nat
deriving DecidableEq

/-- One criterion block of `calculate_suitability_score`:
`max_points += importance`, `total_points += importance` when matched, and
the checklist item is appended. State is `(checklist, total, max)`. -/
def addCriterion (st : List ChecklistItem × Nat × Nat)
    (label : List Char) (matched : Bool) (importance : Nat) :
    List ChecklistItem × Nat × Nat :=
  (st.1 ++ [⟨label, matched, importance⟩],
   st.2.1 + (if matched then importance else 0),
   st.2.2 + importance)

/-- Initial `(checklist, total_points, max_points)` state. -/
def scoreInit : List ChecklistItem × Nat × Nat := ([], 0, 0)

/-- CIDB grade string to number: `int(s.split()[-1]) if s else 0`, where
`none` models a raised `ValueError`/`IndexError`. -/
def gradeNum (s : List Char) : Option Int :=
  if s.isEmpty then some 0
  else
    match (pyWords s).getLast? with
    | some tok => pyIntL tok
    | none => none

/-- The CIDB match rule: both grades converted via `gradeNum`, company
grade must be ≥ required grade; any conversion failure means no match. -/
def cidbMatched (req comp : List Char) : Bool :=
  match gradeNum req, gradeNum comp with
  | some r, some c => decide (r ≤ c)
  | _, _ => false

/-- Industry-sector block: runs iff both sides carry `industry_sector`;
case-insensitive equality, weight 5. -/
def industryStep (t : Tender) (p : CompanyProfile)
    (st : List ChecklistItem × Nat × Nat) : List ChecklistItem × Nat × Nat :=
  match t.industry_sector, p.industry_sector with
  | some ts, some ps =>
      addCriterion st ("Industry sector match: ".toList ++ ts)
        (decide (pyLower ts = pyLower ps)) 5
  | _, _ => st

/-- Geographic block: runs iff the tender has `province` and the profile
has `geographic_coverage`; membership test, weight 4. -/
def geoStep (t : Tender) (p : CompanyProfile)
    (st : List ChecklistItem × Nat × Nat) : List ChecklistItem × Nat × Nat :=
  match t.province, p.geographic_coverage with
  | some pr, some cov =>
      addCriterion st ("Operates in province: ".toList ++ pr)
        (decide (pr ∈ cov)) 4
  | _, _ => st

/-- CIDB block: runs iff the tender carries a truthy `cidb_required` and
the profile carries `cidb_grade`; the tender's own `cidb_grade` defaults
to the empty string; weight 5. -/
def cidbStep (t : Tender) (p : CompanyProfile)
    (st : List ChecklistItem × Nat × Nat) : List ChecklistItem × Nat × Nat :=
  match t.cidb_required, p.cidb_grade with
  | some true, some cg =>
      addCriterion st
        ("Has required CIDB grade: ".toList ++ (t.cidb_grade.getD []))
        (cidbMatched (t.cidb_grade.getD []) cg) 5
  | _, _ => st

/-- B-BBEE block: runs iff both sides carry their level field; profile
level must be ≤ required level (lower is better); weight 4. -/
def bbbeeStep (t : Tender) (p : CompanyProfile)
    (st : List ChecklistItem × Nat × Nat) : List ChecklistItem × Nat × Nat :=
  match t.bbbee_level_required, p.bbbee_level with
  | some rl, some cl =>
      addCriterion st
        ("Meets BBBEE level requirement: ".toList ++ (toString rl).toList)
        (decide (cl ≤ rl)) 4
  | _, _ => st

/-- Experience block: runs iff both sides carry their experience field;
profile years must be ≥ required years; weight 3. -/
def expStep (t : Tender) (p : CompanyProfile)
    (st : List ChecklistItem × Nat × Nat) : List ChecklistItem × Nat × Nat :=
  match t.min_years_experience, p.years_experience with
  | some ry, some cy =>
      addCriterion st
        ("Has required experience: ".toList ++ (toString ry).toList
          ++ " years".toList)
        (decide (ry ≤ cy)) 3
  | _, _ => st

/-- Recommendation tiers of `calculate_suitability_score`. -/
def recommendationFor (score : Nat) : List Char :=
  if 80 ≤ score then "Highly suitable - strong match for requirements".toList
  else if 60 ≤ score then "Suitable - good match with some gaps".toList
  else if 40 ≤ score then "Moderately suitable - significant gaps exist".toList
  else "Not suitable - major requirements not met".toList

/-- `calculate_suitability_score` from `app/routers/readiness.py`: the five
criterion blocks in source order, then
`score = int((total_points / max_points * 100) if max_points > 0 else 50)`
(Python `int()` truncation of non-negative quotients is `Nat` floor
division), then the recommendation tier. Returns
`(score, checklist, recommendation)`. -/
def calculate_suitability_score (t : Tender) (p : CompanyProfile) :
    Nat × List ChecklistItem × List Char :=
  let st := expStep t p (bbbeeStep t p (cidbStep t p
    (geoStep t p (industryStep t p scoreInit))))
  let score := if 0 < st.2.2 then st.2.1 * 100 / st.2.2 else 50
  (score, st.1, recommendationFor score)

/-- Sum of importances of matched checklist items (the scorer's
`total_points`, recomputed from the checklist alone). -/
def achievedPoints (l : List ChecklistItem) : Nat :=
  (l.map (fun c => if c.matched then c.importance else 0)).sum

/-- Sum of importances of all checklist items (the scorer's `max_points`,
recomputed from the checklist alone). -/
def possiblePoints (l : List ChecklistItem) : Nat :=
  (l.map (fun c => c.importance)).sum

example : pyWords "  solar  panels ".toList = ["solar".toList, "panels".toList] := by decide
example : containsSub "solar".toList "supply of solar pv".toList = true := by decide
example : containsSub "panels".toList "supply of solar pv".toList = false := by decide
example : pyIntL "7".toList = some 7 := by decide
example : pyIntL "-3".toList = some (-3) := by decide
example : gradeNum "Grade 7".toList = some 7 := by decide
example : gradeNum [] = some 0 := by decide
example : gradeNum " ".toList = none := by decide
example :
    (calculate_suitability_score
      ⟨some "Construction".toList, some "Gauteng".toList, none, none, none, none⟩
      ⟨some "construction".toList, some ["Limpopo".toList], none, none, none⟩).1 = 55 := by
  decide

/-! ## Scorer: checklist characterization -/

/-- The industry-sector checklist contribution: one item when both sides
declare `industry_sector`, nothing otherwise. -/
def industryItems (t : Tender) (p : CompanyProfile) : List ChecklistItem :=
  match t.industry_sector, p.industry_sector with
  | some ts, some ps =>
      [⟨"Industry sector match: ".toList ++ ts,
        decide (pyLower ts = pyLower ps), 5⟩]
  | _, _ => []

/-- The geographic-coverage checklist contribution. -/
def geoItems (t : Tender) (p : CompanyProfile) : List ChecklistItem :=
  match t.province, p.geographic_coverage with
  | some pr, some cov =>
      [⟨"Operates in province: ".toList ++ pr, decide (pr ∈ cov), 4⟩]
  | _, _ => []

/-- The CIDB checklist contribution: one item when the tender declares a
truthy `cidb_required` and the profile declares `cidb_grade`. -/
def cidbItems (t : Tender) (p : CompanyProfile) : List ChecklistItem :=
  match t.cidb_required, p.cidb_grade with
  | some true, some cg =>
      [⟨"Has required CIDB grade: ".toList ++ (t.cidb_grade.getD []),
        cidbMatched (t.cidb_grade.getD []) cg, 5⟩]
  | _, _ => []

/-- The B-BBEE checklist contribution. -/
def bbbeeItems (t : Tender) (p : CompanyProfile) : List ChecklistItem :=
  match t.bbbee_level_required, p.bbbee_level with
  | some rl, some cl =>
      [⟨"Meets BBBEE level requirement: ".toList ++ (toString rl).toList,
        decide (cl ≤ rl), 4⟩]
  | _, _ => []

/-- The years-of-experience checklist contribution. -/
def expItems (t : Tender) (p : CompanyProfile) : List ChecklistItem :=
  match t.min_years_experience, p.years_experience with
  | some ry, some cy =>
      [⟨"Has required experience: ".toList ++ (toString ry).toList
          ++ " years".toList,
        decide (ry ≤ cy), 3⟩]
  | _, _ => []

lemma industryStep_fst (t : Tender) (p : CompanyProfile) (st) :
    (industryStep t p st).1 = st.1 ++ industryItems t p := by
  unfold industryStep industryItems
  cases t.industry_sector <;> cases p.industry_sector <;> simp [addCriterion]

lemma geoStep_fst (t : Tender) (p : CompanyProfile) (st) :
    (geoStep t p st).1 = st.1 ++ geoItems t p := by
  unfold geoStep geoItems
  cases t.province <;> cases p.geographic_coverage <;> simp [addCriterion]

lemma cidbStep_fst (t : Tender) (p : CompanyProfile) (st) :
    (cidbStep t p st).1 = st.1 ++ cidbItems t p := by
  unfold cidbStep cidbItems
  cases t.cidb_required with
  | none => cases p.cidb_grade <;> simp [addCriterion]
  | some b => cases b <;> cases p.cidb_grade <;> simp [addCriterion]

lemma bbbeeStep_fst (t : Tender) (p : CompanyProfile) (st) :
    (bbbeeStep t p st).1 = st.1 ++ bbbeeItems t p := by
  unfold bbbeeStep bbbeeItems
  cases t.bbbee_level_required <;> cases p.bbbee_level <;> simp [addCriterion]

lemma expStep_fst (t : Tender) (p : CompanyProfile) (st) :
    (expStep t p st).1 = st.1 ++ expItems t p := by
  unfold expStep expItems
  cases t.min_years_experience <;> cases p.years_experience <;>
    simp [addCriterion]

/-- The checklist produced by the scorer is the five per-criterion
contributions in source order. -/
lemma calc_checklist (t : Tender) (p : CompanyProfile) :
    (calculate_suitability_score t p).2.1 =
      industryItems t p ++ geoItems t p ++ cidbItems t p
        ++ bbbeeItems t p ++ expItems t p := by
  simp [calculate_suitability_score, expStep_fst, bbbeeStep_fst,
    cidbStep_fst, geoStep_fst, industryStep_fst, scoreInit,
    List.append_assoc]

/-- Invariant tying the scorer's running accumulators to the checklist. -/
def StInv (st : List ChecklistItem × Nat × Nat) : Prop :=
  st.2.1 = achievedPoints st.1 ∧ st.2.2 = possiblePoints st.1

lemma stInv_scoreInit : StInv scoreInit := by
  constructor <;> rfl

lemma stInv_addCriterion {st} (h : StInv st) (l : List Char) (m : Bool)
    (w : Nat) : StInv (addCriterion st l m w) := by
  obtain ⟨h1, h2⟩ := h
  constructor <;>
    simp [addCriterion, achievedPoints, possiblePoints, h1, h2]

lemma stInv_industryStep (t : Tender) (p : CompanyProfile) {st}
    (h : StInv st) : StInv (industryStep t p st) := by
  unfold industryStep
  split
  · exact stInv_addCriterion h _ _ _
  · exact h

lemma stInv_geoStep (t : Tender) (p : CompanyProfile) {st}
    (h : StInv st) : StInv (geoStep t p st) := by
  unfold geoStep
  split
  · exact stInv_addCriterion h _ _ _
  · exact h

lemma stInv_cidbStep (t : Tender) (p : CompanyProfile) {st}
    (h : StInv st) : StInv (cidbStep t p st) := by
  unfold cidbStep
  split
  · exact stInv_addCriterion h _ _ _
  · exact h

lemma stInv_bbbeeStep (t : Tender) (p : CompanyProfile) {st}
    (h : StInv st) : StInv (bbbeeStep t p st) := by
  unfold bbbeeStep
  split
  · exact stInv_addCriterion h _ _ _
  · exact h

lemma stInv_expStep (t : Tender) (p : CompanyProfile) {st}
    (h : StInv st) : StInv (expStep t p st) := by
  unfold expStep
  split
  · exact stInv_addCriterion h _ _ _
  · exact h

/-- C1 (amended): the suitability score is the floor (Python `int()`
truncation) of achieved/possible·100 when a criterion is applicable, and
the fixed default 50 otherwise. -/
theorem suitability_score_eq_floor (t : Tender) (p : CompanyProfile) :
    (calculate_suitability_score t p).1 =
      if 0 < possiblePoints (calculate_suitability_score t p).2.1 then
        achievedPoints (calculate_suitability_score t p).2.1 * 100 /
          possiblePoints (calculate_suitability_score t p).2.1
      else 50 := by
  obtain ⟨h1, h2⟩ := stInv_expStep t p (stInv_bbbeeStep t p
    (stInv_cidbStep t p (stInv_geoStep t p
      (stInv_industryStep t p stInv_scoreInit))))
  simp only [calculate_suitability_score]
  rw [h1, h2]

lemma industryItems_length (t : Tender) (p : CompanyProfile) :
    (industryItems t p).length =
      (if t.industry_sector.isSome && p.industry_sector.isSome
       then 1 else 0) := by
  unfold industryItems
  cases t.industry_sector <;> cases p.industry_sector <;> simp

lemma geoItems_length (t : Tender) (p : CompanyProfile) :
    (geoItems t p).length =
      (if t.province.isSome && p.geographic_coverage.isSome
       then 1 else 0) := by
  unfold geoItems
  cases t.province <;> cases p.geographic_coverage <;> simp

lemma cidbItems_length (t : Tender) (p : CompanyProfile) :
    (cidbItems t p).length =
      (if decide (t.cidb_required = some true) && p.cidb_grade.isSome
       then 1 else 0) := by
  unfold cidbItems
  cases t.cidb_required with
  | none => cases p.cidb_grade <;> simp
  | some b => cases b <;> cases p.cidb_grade <;> simp

lemma bbbeeItems_length (t : Tender) (p : CompanyProfile) :
    (bbbeeItems t p).length =
      (if t.bbbee_level_required.isSome && p.bbbee_level.isSome
       then 1 else 0) := by
  unfold bbbeeItems
  cases t.bbbee_level_required <;> cases p.bbbee_level <;> simp

lemma expItems_length (t : Tender) (p : CompanyProfile) :
    (expItems t p).length =
      (if t.min_years_experience.isSome && p.years_experience.isSome
       then 1 else 0) := by
  unfold expItems
  cases t.min_years_experience <;> cases p.years_experience <;> simp

/-- C3: the checklist is exactly the per-criterion contributions in the
fixed source order (industry, geography, CIDB, B-BBEE, experience), and
each contribution is nonempty exactly when both sides declare the
relevant field (for CIDB: the tender declares a truthy requirement). -/
theorem checklist_exact_and_ordered (t : Tender) (p : CompanyProfile) :
    (calculate_suitability_score t p).2.1 =
      industryItems t p ++ geoItems t p ++ cidbItems t p
        ++ bbbeeItems t p ++ expItems t p
    ∧ (industryItems t p).length =
        (if t.industry_sector.isSome && p.industry_sector.isSome
         then 1 else 0)
    ∧ (geoItems t p).length =
        (if t.province.isSome && p.geographic_coverage.isSome
         then 1 else 0)
    ∧ (cidbItems t p).length =
        (if decide (t.cidb_required = some true) && p.cidb_grade.isSome
         then 1 else 0)
    ∧ (bbbeeItems t p).length =
        (if t.bbbee_level_required.isSome && p.bbbee_level.isSome
         then 1 else 0)
    ∧ (expItems t p).length =
        (if t.min_years_experience.isSome && p.years_experience.isSome
         then 1 else 0) :=
  ⟨calc_checklist t p, industryItems_length t p, geoItems_length t p,
   cidbItems_length t p, bbbeeItems_length t p, expItems_length t p⟩

/-- Tender for the C1 counterexample: sector "Construction", province
"Gauteng", nothing else declared. -/
def tCex : Tender :=
  ⟨some "Construction".toList, some "Gauteng".toList, none, none, none, none⟩

/-- Profile for the C1 counterexample: sector "construction", coverage
only "Limpopo", nothing else declared. -/
def pCex : CompanyProfile :=
  ⟨some "construction".toList, some ["Limpopo".toList], none, none, none⟩

/-- C1 counterexample: with achieved = 5 and possible = 9 the scorer
returns 55 = ⌊500/9⌋, while `round(5/9·100) = 56`, so the score is not
`round(achieved/possible·100)`. -/
theorem score_not_rounded_cex :
    achievedPoints (calculate_suitability_score tCex pCex).2.1 = 5
    ∧ possiblePoints (calculate_suitability_score tCex pCex).2.1 = 9
    ∧ (calculate_suitability_score tCex pCex).1 = 55
    ∧ round ((5 : ℚ) / 9 * 100) = 56
    ∧ ((calculate_suitability_score tCex pCex).1 : ℤ)
        ≠ round ((5 : ℚ) / 9 * 100) := by
  have hr : round ((5 : ℚ) / 9 * 100) = 56 := by rw [round_eq]; norm_num
  exact ⟨by decide, by decide, by decide, hr, by rw [hr]; decide⟩

/-- C10: when the tender requires CIDB, the profile carries a grade, and
the tender's own `cidb_grade` is absent or empty, the required grade
converts to the number 0 and the CIDB criterion is matched for any
profile grade whose trailing token parses to a non-negative integer. -/
theorem cidb_empty_required_matches (t : Tender) (p : CompanyProfile)
    (cg tok : List Char) (k : Int)
    (h1 : t.cidb_required = some true) (h2 : p.cidb_grade = some cg)
    (h3 : t.cidb_grade = none ∨ t.cidb_grade = some [])
    (h4 : (pyWords cg).getLast? = some tok)
    (h5 : pyIntL tok = some k) (h6 : 0 ≤ k) :
    gradeNum (t.cidb_grade.getD []) = some 0
    ∧ (⟨"Has required CIDB grade: ".toList, true, 5⟩ : ChecklistItem)
        ∈ (calculate_suitability_score t p).2.1 := by
  have hrg : t.cidb_grade.getD [] = [] := by
    rcases h3 with h | h <;> simp [h]
  have hcgne : cg.isEmpty = false := by
    cases cg with
    | nil => simp [pyWords, pyWordsAux] at h4
    | cons a l => rfl
  have hg : gradeNum cg = some k := by
    unfold gradeNum
    simp [hcgne, h4, h5]
  have hm : cidbMatched [] cg = true := by
    unfold cidbMatched
    have h0 : gradeNum [] = some 0 := rfl
    simp [h0, hg, h6]
  have hcidb : cidbItems t p =
      [⟨"Has required CIDB grade: ".toList, true, 5⟩] := by
    unfold cidbItems
    rw [h1, h2, hrg]
    simp [hm]
  constructor
  · rw [hrg]; rfl
  · rw [calc_checklist, hcidb]
    simp

/-- Tender for the C10 witness: requires CIDB but declares no grade. -/
def tC10 : Tender := ⟨none, none, some true, none, none, none⟩

/-- Profile for the C10 witness: grade "Grade 7". -/
def pC10 : CompanyProfile := ⟨none, none, some "Grade 7".toList, none, none⟩

/-- Witness for C10 at a concrete tender/profile pair. -/
theorem cidb_empty_required_matches_witness :
    gradeNum (tC10.cidb_grade.getD []) = some 0
    ∧ (⟨"Has required CIDB grade: ".toList, true, 5⟩ : ChecklistItem)
        ∈ (calculate_suitability_score tC10 pC10).2.1 :=
  cidb_empty_required_matches tC10 pC10 "Grade 7".toList "7".toList 7
    rfl rfl (Or.inl rfl) (by decide) (by decide) (by decide)

/-! ## Relevance ranker (`app/routers/search.py`) -/

/-- Core of the per-candidate scoring loop of `search_tenders`: one point
per term of `search_terms` occurring as a substring of the description,
then `relevance_score /= len(search_terms)` when the term list is
nonempty. -/
def relevanceOfTerms (terms : List (List Char)) (desc : List Char) : ℚ :=
  if terms.isEmpty then (List.countP (fun t => containsSub t desc) terms : ℚ)
  else (List.countP (fun t => containsSub t desc) terms : ℚ)
        / (terms.length : ℚ)

/-- `search_tenders` relevance for one candidate:
`search_terms = keywords.lower().split()` matched against
`description.lower()`. -/
def relevance_score (keywords desc : List Char) : ℚ :=
  relevanceOfTerms (pyWords (pyLower keywords)) (pyLower desc)

/-- Modelled from the spec claim wording: the number of DISTINCT query
terms that occur as a substring of the lowercased description, divided by
the total number of terms. Compared against `relevance_score`, which is
what the code computes. -/
def relevance_score_distinct (keywords desc : List Char) : ℚ :=
  if (pyWords (pyLower keywords)).isEmpty then 0
  else (List.countP (fun t => containsSub t (pyLower desc))
          (pyWords (pyLower keywords)).dedup : ℚ)
        / ((pyWords (pyLower keywords)).length : ℚ)

/-- C4 counterexample: for the duplicated query "road road" against
description "Road", the code scores 1 (each occurrence of the term in the
split list counts), while distinct-numerator counting gives 1/2. -/
theorem relevance_distinct_cex :
    relevance_score "road road".toList "Road".toList = 1
    ∧ relevance_score_distinct "road road".toList "Road".toList = 1 / 2
    ∧ relevance_score "road road".toList "Road".toList
        ≠ relevance_score_distinct "road road".toList "Road".toList := by
  have hterms : pyWords (pyLower "road road".toList)
      = ["road".toList, "road".toList] := by decide
  have hdedup : (["road".toList, "road".toList] : List (List Char)).dedup
      = ["road".toList] := by decide
  have hcount2 : List.countP
      (fun t => containsSub t (pyLower "Road".toList))
      ["road".toList, "road".toList] = 2 := by decide
  have hcount1 : List.countP
      (fun t => containsSub t (pyLower "Road".toList))
      ["road".toList] = 1 := by decide
  have h1 : relevance_score "road road".toList "Road".toList = 1 := by
    unfold relevance_score relevanceOfTerms
    rw [hterms, hcount2]
    norm_num
  have h2 : relevance_score_distinct "road road".toList "Road".toList
      = 1 / 2 := by
    unfold relevance_score_distinct
    rw [hterms, hdedup, hcount1]
    norm_num
  exact ⟨h1, h2, by rw [h1, h2]; norm_num⟩

/-- C4 (amended): the relevance score is the number of terms of the split
list (with multiplicity) occurring as substrings of the lowercased
description, divided by the length of the split list; it is 0 for an
empty query and always lies in [0, 1]. -/
theorem relevance_score_eq (kw desc : List Char) :
    relevance_score kw desc =
      (if (pyWords (pyLower kw)).isEmpty then 0
       else (List.countP (fun t => containsSub t (pyLower desc))
              (pyWords (pyLower kw)) : ℚ)
            / ((pyWords (pyLower kw)).length : ℚ))
    ∧ 0 ≤ relevance_score kw desc ∧ relevance_score kw desc ≤ 1 := by
  have hle : List.countP (fun t => containsSub t (pyLower desc))
      (pyWords (pyLower kw)) ≤ (pyWords (pyLower kw)).length :=
    List.countP_le_length _
  unfold relevance_score relevanceOfTerms
  rcases he : (pyWords (pyLower kw)).isEmpty with _ | _
  · have hne : (pyWords (pyLower kw)).length ≠ 0 := by
      cases h : pyWords (pyLower kw) with
      | nil => rw [h] at he; simp at he
      | cons a l => simp
    have hpos : (0 : ℚ) < ((pyWords (pyLower kw)).length : ℚ) := by
      exact_mod_cast Nat.pos_of_ne_zero hne
    refine ⟨by simp [he], by positivity, ?_⟩
    simp only [he, Bool.false_eq_true, if_false]
    rw [div_le_one hpos]
    exact_mod_cast hle
  · have hnil : pyWords (pyLower kw) = [] := by
      cases h : pyWords (pyLower kw) with
      | nil => rfl
      | cons a l => rw [h] at he; simp at he
    simp [he, hnil]

/-- C8: appending one further search term that occurs as a substring of
the (already lowercased) description never decreases the relevance
score. -/
theorem relevance_monotone (terms : List (List Char)) (desc extra : List Char)
    (h : containsSub extra desc = true) :
    relevanceOfTerms terms desc ≤ relevanceOfTerms (terms ++ [extra]) desc := by
  unfold relevanceOfTerms
  have hcnt : List.countP (fun t => containsSub t desc) (terms ++ [extra])
      = List.countP (fun t => containsSub t desc) terms + 1 := by
    simp [List.countP_append, List.countP_cons, h]
  cases terms with
  | nil =>
      simp [h, List.countP_cons]
  | cons t0 rest =>
      have hle : List.countP (fun t => containsSub t desc) (t0 :: rest)
          ≤ (t0 :: rest).length := List.countP_le_length _
      rw [hcnt]
      simp only [List.cons_append, List.isEmpty_cons, Bool.false_eq_true,
        if_false, List.length_cons, List.length_append, List.length_nil,
        Nat.zero_add]
      push_cast
      have hpos : (0 : ℚ) < (rest.length : ℚ) + 1 := by positivity
      have hpos2 : (0 : ℚ) < (rest.length : ℚ) + 1 + 1 := by positivity
      rw [div_le_div_iff₀ hpos hpos2]
      have hleq : (List.countP (fun t => containsSub t desc) (t0 :: rest) : ℚ)
          ≤ (rest.length : ℚ) + 1 := by
        have hc : (List.countP (fun t => containsSub t desc) (t0 :: rest) : ℚ)
            ≤ ((t0 :: rest).length : ℚ) := Nat.cast_le.mpr hle
        simp only [List.length_cons] at hc
        push_cast at hc
        linarith
      nlinarith [hleq]

/-- Witness for C8: adding the matching term "of" to the one-term query
["solar"] against description "supply of solar" does not decrease the
score. -/
theorem relevance_monotone_witness :
    relevanceOfTerms ["solar".toList] "supply of solar".toList
      ≤ relevanceOfTerms (["solar".toList] ++ ["of".toList])
          "supply of solar".toList :=
  relevance_monotone ["solar".toList] "supply of solar".toList "of".toList
    (by decide)

/-- The excerpt construction of `search_tenders`:
`description = mongo_tender.get("description", "").lower()` followed by
`description[:200] + "..." if len(description) > 200 else description`. -/
def build_excerpt (desc : List Char) : List Char :=
  if 200 < (pyLower desc).length then (pyLower desc).take 200 ++ "...".toList
  else pyLower desc

/-- C9 counterexample: the excerpt of description "A" is "a", not the
description's own first 200 characters "A" — the code lowercases the
text before excerpting. -/
theorem excerpt_lowercased_cex :
    build_excerpt "A".toList = "a".toList
    ∧ build_excerpt "A".toList ≠ "A".toList := by
  exact ⟨by decide, by decide⟩

/-- C9 (amended): the excerpt is the first 200 characters of the
LOWERCASED description, with the marker "..." appended exactly when the
description is longer than 200 characters; its length is then
`min (length desc) 200` plus 3 for the marker. -/
theorem excerpt_eq (desc : List Char) :
    build_excerpt desc =
      (if 200 < desc.length then (pyLower desc).take 200 ++ "...".toList
       else pyLower desc)
    ∧ (build_excerpt desc).length =
        min desc.length 200 + (if 200 < desc.length then 3 else 0) := by
  have hlen : (pyLower desc).length = desc.length := by
    simp [pyLower]
  constructor
  · unfold build_excerpt
    rw [hlen]
  · unfold build_excerpt
    rw [hlen]
    by_cases hc : 200 < desc.length
    · simp only [hc, if_pos]
      simp [List.length_take, hlen]
      omega
    · simp only [hc, if_neg, not_false_iff]
      simp [hlen]
      omega

/-! ## Candidate selection filters (`search_tenders`, `app/models.py`) -/

/-- `TenderMetadata` relational row as used by the search filters
(`id`/`created_at` bookkeeping columns omitted); nullable columns are
`Option`. -/
structure TenderMeta where
  tender_id : List Char
  title : Option (List Char)
  buyer : Option (List Char)
  province : Option (List Char)
  budget_min : Option ℚ
  budget_max : Option ℚ
  deadline : Option Int
deriving DecidableEq

/-- The conditional filter conjunction of `search_tenders`: each supplied
filter must hold (SQL three-valued logic: a comparison against a NULL
column does not match). `province`/`buyer` filters are skipped for falsy
(empty) strings, budget filters for `None` only, mirroring the Python
truthiness tests. -/
def passes_filters (t : TenderMeta) (province buyer : Option (List Char))
    (min_budget max_budget : Option ℚ)
    (deadline_from deadline_to : Option Int) : Bool :=
  (match province with
   | some pv =>
      if pv.isEmpty then true
      else match t.province with
           | some c => decide (c = pv)
           | none => false
   | none => true)
  && (match buyer with
      | some b =>
        if b.isEmpty then true
        else match t.buyer with
             | some c => decide (c = b)
             | none => false
      | none => true)
  && (match min_budget with
      | some q => match t.budget_max with
                  | some c => decide (q ≤ c)
                  | none => false
      | none => true)
  && (match max_budget with
      | some q => match t.budget_min with
                  | some c => decide (c ≤ q)
                  | none => false
      | none => true)
  && (match deadline_from with
      | some d => match t.deadline with
                  | some td => decide (d ≤ td)
                  | none => false
      | none => true)
  && (match deadline_to with
      | some d => match t.deadline with
                  | some td => decide (td ≤ d)
                  | none => false
      | none => true)

/-- C5: with only budget filters supplied, a tender with budget bounds
`[bmin, bmax]` passes iff its interval intersects the requested interval
(`none` bounds are unbounded). -/
theorem budget_filter_iff_intersect (tid : List Char) (bmin bmax : ℚ)
    (qmin qmax : Option ℚ)
    (hb : bmin ≤ bmax)
    (hq : ∀ a b, qmin = some a → qmax = some b → a ≤ b) :
    passes_filters ⟨tid, none, none, none, some bmin, some bmax, none⟩
        none none qmin qmax none none = true
    ↔ ∃ x : ℚ, bmin ≤ x ∧ x ≤ bmax
        ∧ (∀ a, qmin = some a → a ≤ x)
        ∧ (∀ b, qmax = some b → x ≤ b) := by
  rcases qmin with _ | a <;> rcases qmax with _ | b
  · simp only [passes_filters]
    simp
    exact ⟨bmin, le_rfl, hb⟩
  · simp only [passes_filters]
    simp
    constructor
    · intro h
      exact ⟨min bmax b, le_min hb h, min_le_left _ _, min_le_right _ _⟩
    · rintro ⟨x, h1, _, h3⟩
      exact h1.trans h3
  · simp only [passes_filters]
    simp
    constructor
    · intro h
      exact ⟨max bmin a, le_max_left _ _, max_le hb h, le_max_right _ _⟩
    · rintro ⟨x, _, h2, h3⟩
      exact h3.trans h2
  · have hab : a ≤ b := hq a b rfl rfl
    simp only [passes_filters]
    simp
    constructor
    · rintro ⟨h1, h2⟩
      exact ⟨max bmin a, le_max_left _ _, max_le hb h1,
        le_max_right _ _, max_le h2 hab⟩
    · rintro ⟨x, h1, h2, h3, h4⟩
      exact ⟨h3.trans h2, h1.trans h4⟩

/-- Witness for C5, on the claim's own instance: tender budget
`[100, 500]` is excluded by `min_budget = 600`, included by
`min_budget = 400`, and the theorem's intersection characterization
applies at `min_budget = 600`. -/
theorem budget_filter_iff_intersect_witness :
    passes_filters ⟨"T1".toList, none, none, none, some 100, some 500, none⟩
        none none (some 600) none none none = false
    ∧ passes_filters ⟨"T1".toList, none, none, none, some 100, some 500, none⟩
        none none (some 400) none none none = true
    ∧ (passes_filters
          ⟨"T1".toList, none, none, none, some 100, some 500, none⟩
          none none (some 600) none none none = true
        ↔ ∃ x : ℚ, 100 ≤ x ∧ x ≤ 500
            ∧ (∀ a, (some (600 : ℚ)) = some a → a ≤ x)
            ∧ (∀ b, (none : Option ℚ) = some b → x ≤ b)) :=
  ⟨by decide, by decide,
   budget_filter_iff_intersect "T1".toList 100 500 (some 600) none
     (by norm_num) (by intro a b h1 h2; simp at h2)⟩

/-! ## Readiness score persistence (`check_readiness`) -/

/-- A persisted readiness record (`readiness_data` in `check_readiness`);
`created_at` is an abstract timestamp. -/
structure ReadinessRecord where
  id : List Char
  tender_id : List Char
  team_id : List Char
  suitability_score : Nat
  checklist : List ChecklistItem
  recommendation : List Char
  created_at : Nat
deriving DecidableEq

/-- MongoDB `insert_one` on the `readiness_scores` collection: appends a
new document, never replaces. -/
def insert_one_readiness (store : List ReadinessRecord)
    (r : ReadinessRecord) : List ReadinessRecord :=
  store ++ [r]

/-- The persistence step of `check_readiness`: build `readiness_data`
from the computed score and `insert_one` it. `readiness_id` models the
fresh `str(uuid.uuid4())` and `now` the `datetime.utcnow()` call. -/
def check_readiness_persist (store : List ReadinessRecord)
    (readiness_id tid team : List Char) (now : Nat)
    (t : Tender) (p : CompanyProfile) : List ReadinessRecord :=
  insert_one_readiness store
    ⟨readiness_id, tid, team, (calculate_suitability_score t p).1,
     (calculate_suitability_score t p).2.1,
     (calculate_suitability_score t p).2.2, now⟩

/-- Number of stored readiness records for a `(tender_id, team_id)`
pair. -/
def pairCount (store : List ReadinessRecord) (tid team : List Char) : Nat :=
  store.countP (fun r => decide (r.tender_id = tid ∧ r.team_id = team))

/-- Readiness store after one check for `("T1", "A")`. -/
def rStore1 : List ReadinessRecord :=
  check_readiness_persist [] "r1".toList "T1".toList "A".toList 0 tCex pCex

/-- Readiness store after a second check for the same pair. -/
def rStore2 : List ReadinessRecord :=
  check_readiness_persist rStore1 "r2".toList "T1".toList "A".toList 1
    tCex pCex

/-- C2 counterexample: two successful checks for the same
`(tender_id, team_id)` pair leave TWO records in the store, so the store
does not hold at most one record per pair. -/
theorem readiness_not_overwritten_cex :
    pairCount rStore2 "T1".toList "A".toList = 2
    ∧ ¬ pairCount rStore2 "T1".toList "A".toList ≤ 1 := by
  exact ⟨by decide, by decide⟩

/-- C2 (amended): every successful check appends a fresh record for its
pair and retains all earlier records, so the store holds one record per
performed check of the pair. -/
theorem readiness_check_appends (store : List ReadinessRecord)
    (rid tid team : List Char) (now : Nat)
    (t : Tender) (p : CompanyProfile) :
    check_readiness_persist store rid tid team now t p =
      store ++ [⟨rid, tid, team, (calculate_suitability_score t p).1,
        (calculate_suitability_score t p).2.1,
        (calculate_suitability_score t p).2.2, now⟩]
    ∧ pairCount (check_readiness_persist store rid tid team now t p)
        tid team = pairCount store tid team + 1 := by
  constructor
  · rfl
  · unfold check_readiness_persist insert_one_readiness pairCount
    simp [List.countP_append, List.countP_cons]

/-! ## Tender sync engine (`app/crud.py`: `upsert_tender`) -/

/-- The payload's `value` field: either a dict (possibly without an
`amount`) or some non-dict value, mirroring the `isinstance(..., dict)`
test. -/
inductive ValueField where
  | dict (amount : Option ℚ)
  | nondict
deriving DecidableEq

/-- The payload's `tenderPeriod` field, mirroring the
`isinstance(..., dict)` test on it. -/
inductive PeriodField where
  | dict (endDate : Option (List Char))
  | nondict
deriving DecidableEq

/-- An incoming raw tender payload: the fields `upsert_tender` reads,
each optional. Unknown extra fields only flow into `raw` verbatim and are
not modelled separately. -/
structure TenderDoc where
  id : Option (List Char)
  title : Option (List Char)
  description : Option (List Char)
  buyer : Option (List Char)
  province : Option (List Char)
  value : Option ValueField
  tenderPeriod : Option PeriodField
deriving DecidableEq

/-- Model of Python `s.replace("Z", "+00:00")` (the pattern is a single
character, so per-character replacement is exact). -/
def replaceZ : List Char → List Char
  | [] => []
  | c :: t =>
      if c = 'Z' then '+' :: '0' :: '0' :: ':' :: '0' :: '0' :: replaceZ t
      else c :: replaceZ t

/-- Modelled from Python's `datetime.datetime.fromisoformat` (an external
library call): accepts strings with a digit `YYYY-MM-DD` prefix and
returns the parsed timestamp, represented by the accepted string itself;
`none` models a raised `ValueError`. -/
def fromisoformat (s : List Char) : Option (List Char) :=
  match s with
  | y1 :: y2 :: y3 :: y4 :: '-' :: m1 :: m2 :: '-' :: d1 :: d2 :: _ =>
      if y1.isDigit && y2.isDigit && y3.isDigit && y4.isDigit
          && m1.isDigit && m2.isDigit && d1.isDigit && d2.isDigit
      then some s else none
  | _ => none

/-- `tender_id = tender_doc.get("id") or str(uuid.uuid4())`: the payload
identifier when present and truthy, else the fresh identifier. -/
def derived_tender_id (doc : TenderDoc) (freshId : List Char) : List Char :=
  match doc.id with
  | some s => if s.isEmpty then freshId else s
  | none => freshId

/-- Budget derivation: `value.amount` when `value` is a dict, else
null. -/
def derived_budget (doc : TenderDoc) : Option ℚ :=
  match doc.value with
  | some (ValueField.dict a) => a
  | _ => none

/-- Deadline derivation: parse `tenderPeriod.endDate` (with "Z" replaced
by "+00:00") when present and truthy; any parse failure is swallowed into
null. -/
def derived_deadline (doc : TenderDoc) : Option (List Char) :=
  match doc.tenderPeriod with
  | some (PeriodField.dict (some s)) =>
      if s.isEmpty then none else fromisoformat (replaceZ s)
  | _ => none

/-- A document in the Mongo `tenders` collection as written by
`upsert_tender` (projection plus raw payload). The stored
`deadline.isoformat()` is represented by the parsed string itself. -/
structure MongoTender where
  mongo_id : List Char
  title : Option (List Char)
  description : List Char
  buyer : Option (List Char)
  province : Option (List Char)
  budget : Option ℚ
  deadline : Option (List Char)
  raw : TenderDoc
deriving DecidableEq

/-- The Mongo document `upsert_tender` writes for a payload. -/
def derived_mongo_doc (doc : TenderDoc) (freshId : List Char) : MongoTender :=
  ⟨derived_tender_id doc freshId, doc.title, doc.description.getD [],
   doc.buyer, doc.province, derived_budget doc, derived_deadline doc, doc⟩

/-- A `tender_metadata` row as written by `upsert_tender`
(`id`/`created_at` bookkeeping columns omitted). -/
structure MetaRow where
  tender_id : List Char
  title : Option (List Char)
  buyer : Option (List Char)
  province : Option (List Char)
  budget_min : Option ℚ
  budget_max : Option ℚ
  deadline : Option (List Char)
deriving DecidableEq

/-- Mongo `replace_one({"_id": id}, doc, upsert=True)`: replace the
matching document, or append when absent. -/
def replace_one (docs : List MongoTender) (d : MongoTender) :
    List MongoTender :=
  if docs.any (fun x => x.mongo_id == d.mongo_id) then
    docs.map (fun x => if x.mongo_id == d.mongo_id then d else x)
  else docs ++ [d]

/-- The relational half of `upsert_tender`: if a row with this
`tender_id` exists, update its fields in place, else insert a new row. -/
def meta_upsert (rows : List MetaRow) (tid : List Char)
    (title buyer province : Option (List Char)) (budget : Option ℚ)
    (deadline : Option (List Char)) : List MetaRow :=
  if rows.any (fun r => r.tender_id == tid) then
    rows.map (fun r =>
      if r.tender_id == tid then
        ⟨r.tender_id, title, buyer, province, budget, budget, deadline⟩
      else r)
  else rows ++ [⟨tid, title, buyer, province, budget, budget, deadline⟩]

/-- Combined state of the two stores. -/
structure SyncState where
  mongo : List MongoTender
  meta : List MetaRow
deriving DecidableEq

/-- Observable store writes, in execution order. -/
inductive StoreEvent where
  | docWrite (id : List Char)
  | metaCommit (id : List Char)
  | metaRollback (id : List Char)
deriving DecidableEq

/-- `upsert_tender` from `app/crud.py`. `freshId` models the
`str(uuid.uuid4())` draw; `commitOk = false` models an `IntegrityError`
raised by `session.commit()` (e.g. a uniqueness violation under
concurrent insert), in which case the relational transaction is rolled
back while the Mongo write stays. Returns the tender id, the new state,
and the ordered store events. -/
def upsert_tender (st : SyncState) (doc : TenderDoc) (freshId : List Char)
    (commitOk : Bool) : List Char × SyncState × List StoreEvent :=
  if commitOk then
    (derived_tender_id doc freshId,
     ⟨replace_one st.mongo (derived_mongo_doc doc freshId),
      meta_upsert st.meta (derived_tender_id doc freshId) doc.title
        doc.buyer doc.province (derived_budget doc)
        (derived_deadline doc)⟩,
     [StoreEvent.docWrite (derived_tender_id doc freshId),
      StoreEvent.metaCommit (derived_tender_id doc freshId)])
  else
    (derived_tender_id doc freshId,
     ⟨replace_one st.mongo (derived_mongo_doc doc freshId), st.meta⟩,
     [StoreEvent.docWrite (derived_tender_id doc freshId),
      StoreEvent.metaRollback (derived_tender_id doc freshId)])

lemma meta_upsert_length (rows : List MetaRow) (tid : List Char)
    (title buyer province : Option (List Char)) (budget : Option ℚ)
    (deadline : Option (List Char)) :
    (meta_upsert rows tid title buyer province budget deadline).length =
      (if rows.any (fun r => r.tender_id == tid) then rows.length
       else rows.length + 1) := by
  unfold meta_upsert
  split
  · rename_i h
    simp [h]
  · rename_i h
    simp only [Bool.not_eq_true] at h
    simp [h]

lemma meta_upsert_mem (rows : List MetaRow) (tid : List Char)
    (title buyer province : Option (List Char)) (budget : Option ℚ)
    (deadline : Option (List Char)) :
    (⟨tid, title, buyer, province, budget, budget, deadline⟩ : MetaRow)
      ∈ meta_upsert rows tid title buyer province budget deadline := by
  unfold meta_upsert
  split
  · rename_i h
    rw [List.any_eq_true] at h
    obtain ⟨r, hr, hbeq⟩ := h
    have heq : r.tender_id = tid := by
      exact eq_of_beq hbeq
    refine List.mem_map.mpr ⟨r, hr, ?_⟩
    simp [hbeq, heq]
  · exact List.mem_append_right _ (List.mem_singleton.mpr rfl)

/-- C6: write ordering and partial-failure contract of `upsert_tender`.
The Mongo write comes first and is identical whether or not the relational
commit succeeds; on commit failure the metadata store is left untouched
(rolled back), the document write is not compensated, and the derived
tender id is still returned; on success the metadata store is updated in
place when the row exists, else extended by one inserted row, and the
written row is present. -/
theorem upsert_two_store_contract (st : SyncState) (doc : TenderDoc)
    (fid : List Char) :
    (upsert_tender st doc fid true).1 = derived_tender_id doc fid
    ∧ (upsert_tender st doc fid false).1 = derived_tender_id doc fid
    ∧ (upsert_tender st doc fid true).2.2 =
        [StoreEvent.docWrite (derived_tender_id doc fid),
         StoreEvent.metaCommit (derived_tender_id doc fid)]
    ∧ (upsert_tender st doc fid false).2.2 =
        [StoreEvent.docWrite (derived_tender_id doc fid),
         StoreEvent.metaRollback (derived_tender_id doc fid)]
    ∧ (upsert_tender st doc fid true).2.1.mongo
        = replace_one st.mongo (derived_mongo_doc doc fid)
    ∧ (upsert_tender st doc fid false).2.1.mongo
        = replace_one st.mongo (derived_mongo_doc doc fid)
    ∧ (upsert_tender st doc fid false).2.1.meta = st.meta
    ∧ ((upsert_tender st doc fid true).2.1.meta).length =
        (if st.meta.any (fun r => r.tender_id == derived_tender_id doc fid)
         then st.meta.length else st.meta.length + 1)
    ∧ (⟨derived_tender_id doc fid, doc.title, doc.buyer, doc.province,
          derived_budget doc, derived_budget doc, derived_deadline doc⟩
        : MetaRow) ∈ (upsert_tender st doc fid true).2.1.meta :=
  ⟨rfl, rfl, rfl, rfl, rfl, rfl, rfl,
   meta_upsert_length st.meta (derived_tender_id doc fid) doc.title
     doc.buyer doc.province (derived_budget doc) (derived_deadline doc),
   meta_upsert_mem st.meta (derived_tender_id doc fid) doc.title
     doc.buyer doc.province (derived_budget doc) (derived_deadline doc)⟩

lemma replace_one_idem (docs : List MongoTender) (d : MongoTender) :
    replace_one (replace_one docs d) d = replace_one docs d := by
  unfold replace_one
  by_cases h : docs.any (fun x => x.mongo_id == d.mongo_id) = true
  · rw [if_pos h]
    have h2 : (docs.map (fun x =>
        if x.mongo_id == d.mongo_id then d else x)).any
        (fun x => x.mongo_id == d.mongo_id) = true := by
      rw [List.any_eq_true] at h ⊢
      obtain ⟨x, hx, hb⟩ := h
      refine ⟨if x.mongo_id == d.mongo_id then d else x,
        List.mem_map_of_mem _ hx, ?_⟩
      rw [if_pos hb]
      simp
    rw [if_pos h2, List.map_map]
    apply List.map_congr_left
    intro x _
    by_cases hb : x.mongo_id == d.mongo_id
    · simp only [Function.comp_apply, hb, if_pos]
      simp
    · simp only [Function.comp_apply, hb, if_neg]
      simp [hb]
  · rw [if_neg h]
    have h2 : (docs ++ [d]).any (fun x => x.mongo_id == d.mongo_id)
        = true := by
      rw [List.any_eq_true]
      exact ⟨d, List.mem_append_right _ (List.mem_singleton.mpr rfl),
        by simp⟩
    rw [if_pos h2, List.map_append]
    have h3 : docs.map (fun x =>
        if x.mongo_id == d.mongo_id then d else x) = docs := by
      rw [Bool.not_eq_true, List.any_eq_false] at h
      conv_rhs => rw [← List.map_id docs]
      apply List.map_congr_left
      intro x hx
      simp [h x hx]
    rw [h3]
    simp

lemma meta_upsert_idem (rows : List MetaRow) (tid : List Char)
    (title buyer province : Option (List Char)) (budget : Option ℚ)
    (deadline : Option (List Char)) :
    meta_upsert (meta_upsert rows tid title buyer province budget deadline)
        tid title buyer province budget deadline
      = meta_upsert rows tid title buyer province budget deadline := by
  unfold meta_upsert
  by_cases h : rows.any (fun r => r.tender_id == tid) = true
  · rw [if_pos h]
    have h2 : (rows.map (fun r =>
        if r.tender_id == tid then
          (⟨r.tender_id, title, buyer, province, budget, budget, deadline⟩
            : MetaRow)
        else r)).any (fun r => r.tender_id == tid) = true := by
      rw [List.any_eq_true] at h ⊢
      obtain ⟨r, hr, hb⟩ := h
      refine ⟨_, List.mem_map_of_mem _ hr, ?_⟩
      rw [if_pos hb]
      simpa using hb
    rw [if_pos h2, List.map_map]
    apply List.map_congr_left
    intro r _
    by_cases hb : r.tender_id == tid
    · simp only [Function.comp_apply, hb, if_pos]
    · simp only [Function.comp_apply, hb, if_neg]
      simp [hb]
  · rw [if_neg h]
    have h2 : ((rows ++
        [(⟨tid, title, buyer, province, budget, budget, deadline⟩
          : MetaRow)]).any (fun r => r.tender_id == tid)) = true := by
      rw [List.any_eq_true]
      exact ⟨_, List.mem_append_right _ (List.mem_singleton.mpr rfl),
        by simp⟩
    rw [if_pos h2, List.map_append]
    have h3 : rows.map (fun r =>
        if r.tender_id == tid then
          (⟨r.tender_id, title, buyer, province, budget, budget, deadline⟩
            : MetaRow)
        else r) = rows := by
      rw [Bool.not_eq_true, List.any_eq_false] at h
      conv_rhs => rw [← List.map_id rows]
      apply List.map_congr_left
      intro r hr
      simp [h r hr]
    rw [h3]
    simp

/-- Payload without an `id` field, for the C7 counterexample. -/
def docNoId : TenderDoc :=
  ⟨none, some "Road works".toList, none, none, none, none, none⟩

/-- Payload carrying the stable id "T1", for the C7 witness. -/
def docWithId : TenderDoc :=
  ⟨some "T1".toList, some "Road works".toList, none, none, none, none, none⟩

/-- Empty dual-store state. -/
def sync0 : SyncState := ⟨[], []⟩

/-- State after one upsert of the id-less payload (fresh uuid "u1"). -/
def sync1 : SyncState := (upsert_tender sync0 docNoId "u1".toList true).2.1

/-- State after a second upsert of the identical payload (fresh uuid
"u2"). -/
def sync2 : SyncState := (upsert_tender sync1 docNoId "u2".toList true).2.1

/-- C7 counterexample: for a payload without a stable identifier each
call draws a fresh uuid, so upserting the identical payload twice leaves
two documents and two rows, not the single-call state. -/
theorem upsert_not_idempotent_cex :
    sync2 ≠ sync1
    ∧ sync1.mongo.length = 1 ∧ sync2.mongo.length = 2
    ∧ sync1.meta.length = 1 ∧ sync2.meta.length = 2 := by
  exact ⟨by decide, by decide, by decide, by decide, by decide⟩

/-- C7 (amended): for a payload that carries a truthy `id`, upserting the
identical payload twice (with both relational commits succeeding) leaves
both stores exactly as after one upsert, whatever uuids were drawn. -/
theorem upsert_idempotent_with_id (st : SyncState) (doc : TenderDoc)
    (fid1 fid2 s : List Char)
    (hid : doc.id = some s) (hne : s.isEmpty = false) :
    (upsert_tender (upsert_tender st doc fid1 true).2.1 doc fid2 true).2.1
      = (upsert_tender st doc fid1 true).2.1 := by
  have htid1 : derived_tender_id doc fid1 = s := by
    unfold derived_tender_id
    rw [hid]
    simp [hne]
  have htid2 : derived_tender_id doc fid2 = s := by
    unfold derived_tender_id
    rw [hid]
    simp [hne]
  have hM : derived_mongo_doc doc fid2 = derived_mongo_doc doc fid1 := by
    unfold derived_mongo_doc
    rw [htid1, htid2]
  show (⟨replace_one (replace_one st.mongo (derived_mongo_doc doc fid1))
          (derived_mongo_doc doc fid2),
        meta_upsert (meta_upsert st.meta (derived_tender_id doc fid1)
            doc.title doc.buyer doc.province (derived_budget doc)
            (derived_deadline doc))
          (derived_tender_id doc fid2) doc.title doc.buyer doc.province
          (derived_budget doc) (derived_deadline doc)⟩ : SyncState)
      = ⟨replace_one st.mongo (derived_mongo_doc doc fid1),
         meta_upsert st.meta (derived_tender_id doc fid1) doc.title
           doc.buyer doc.province (derived_budget doc)
           (derived_deadline doc)⟩
  rw [hM, htid1, htid2, replace_one_idem, meta_upsert_idem]

/-- Witness for C7 at the concrete payload `docWithId` with distinct
fresh uuids "u1" and "u2". -/
theorem upsert_idempotent_with_id_witness :
    (upsert_tender (upsert_tender sync0 docWithId "u1".toList true).2.1
        docWithId "u2".toList true).2.1
      = (upsert_tender sync0 docWithId "u1".toList true).2.1 :=
  upsert_idempotent_with_id sync0 docWithId "u1".toList "u2".toList
    "T1".toList rfl rfl
